import Mathlib

/-!
Verification of the lateral-corridor builder and path-synthesis orchestrator
of `qp_piecewise_jerk_path_optimizer.cc` (Apollo planning module).

Doubles are modelled as rationals (`ℚ`).  A lateral bound interval is a pair
`(first, second) = (lower, upper)`, mirroring `std::pair<double, double>`.
The reference line, the obstacle set and the external QP optimizer are
modelled as explicit parameters, as the spec's design notes prescribe for the
ambient `reference_line_info_` accessors.
-/

namespace Apollo

/-- `SLBoundary`: axis-aligned footprint in the station/offset frame. -/
structure SLBoundary where
  start_s : ℚ
  end_s : ℚ
  start_l : ℚ
  end_l : ℚ
deriving DecidableEq, Repr

/-- `common::FrenetFramePoint`: station, lateral offset and its derivatives. -/
structure FrenetFramePoint where
  s : ℚ
  l : ℚ
  dl : ℚ
  ddl : ℚ
deriving DecidableEq, Repr

/-- An obstacle as seen by `GetLateralBounds`: its static flag
(`obstacle.IsStatic()`) and its perception SL boundary. -/
structure PathObstacle where
  isStatic : Bool
  sl : SLBoundary
deriving DecidableEq, Repr

/-- The reference-line collaborator: `GetLaneWidth` and `GetRoadWidth`
return `(left, right)` half-widths at a station. -/
structure ReferenceLine where
  laneWidth : ℚ → ℚ × ℚ
  roadWidth : ℚ → ℚ × ℚ

/-- Configuration read from `qp_piecewise_jerk_path_config`. -/
structure QpConfig where
  lateral_buffer : ℚ
  qp_delta_s : ℚ
  min_look_ahead_time : ℚ
  min_look_ahead_distance : ℚ
deriving DecidableEq, Repr

/-- `std::min_element` over `hd :: tl` with comparator `lhs.first < rhs.first`:
keeps the first element with minimal `first`. -/
def min_pair_first (tl : List (ℚ × ℚ)) (hd : ℚ × ℚ) : ℚ × ℚ :=
  tl.foldl (fun best p => if p.1 < best.1 then p else best) hd

/-- `std::max_element` over `hd :: tl` with comparator `lhs.second < rhs.second`:
keeps the first element with maximal `second`. -/
def max_pair_second (tl : List (ℚ × ℚ)) (hd : ℚ × ℚ) : ℚ × ℚ :=
  tl.foldl (fun best p => if best.2 < p.2 then p else best) hd

/-- The value `l_lower` the source computes for a bound range:
`max_pair_second(start_iter, end_iter)->first`. -/
def range_l_lower (tl : List (ℚ × ℚ)) (hd : ℚ × ℚ) : ℚ :=
  (max_pair_second tl hd).1

/-- The value `l_upper` the source computes for a bound range:
`min_pair_first(start_iter, end_iter)->second`. -/
def range_l_upper (tl : List (ℚ × ℚ)) (hd : ℚ × ℚ) : ℚ :=
  (min_pair_first tl hd).2

/-- `assign_pair_first` / `assign_pair_second` generalised: apply `f` to the
elements with index in `[a, b)`, the others unchanged; `k` is the index of the
list head. -/
def assignRangeAux (f : ℚ × ℚ → ℚ × ℚ) (a b : ℕ) : ℕ → List (ℚ × ℚ) → List (ℚ × ℚ)
  | _, [] => []
  | k, p :: rest =>
      (if a ≤ k ∧ k < b then f p else p) :: assignRangeAux f a b (k + 1) rest

/-- `assign_pair_first(begin+a, begin+b, v)`: set `lower` on indices `[a, b)`. -/
def assign_pair_first (bounds : List (ℚ × ℚ)) (a b : ℕ) (v : ℚ) : List (ℚ × ℚ) :=
  assignRangeAux (fun p => (v, p.2)) a b 0 bounds

/-- `assign_pair_second(begin+a, begin+b, v)`: set `upper` on indices `[a, b)`. -/
def assign_pair_second (bounds : List (ℚ × ℚ)) (a b : ℕ) (v : ℚ) : List (ℚ × ℚ) :=
  assignRangeAux (fun p => (p.1, v)) a b 0 bounds

/-- `static_cast<int>` of a nonnegative-or-negative rational: C++ truncation
toward zero (well defined here because the operand fits an `int` in every
scenario the claims consider). -/
def cppTrunc (q : ℚ) : ℤ :=
  if q < 0 then -((-q).floor) else q.floor

/-- `size = std::max(2, static_cast<int>(path_length / qp_delta_s))`. -/
def corridorSize (path_length qp_delta_s : ℚ) : ℕ :=
  (max 2 (cppTrunc (path_length / qp_delta_s))).toNat

/-- One iteration of the base-corridor loop: the bound at station `s`,
from lane widths, widened to the road on the side where the ADC footprint
exceeds the lane. -/
def baseBound (adc_sl : SLBoundary) (rl : ReferenceLine) (s : ℚ) : ℚ × ℚ :=
  let lw := rl.laneWidth s
  let left := lw.1
  let right := lw.2
  let adc_off_left := decide (adc_sl.end_l > left)
  let adc_off_right := decide (adc_sl.start_l < -right)
  if adc_off_left || adc_off_right then
    let rw := rl.roadWidth s
    let road_left := rw.1
    let road_right := rw.2
    if adc_off_left then (-right, min adc_sl.end_l road_left)
    else (max adc_sl.start_l (-road_right), left)
  else (-right, left)

/-- The base corridor before obstacle shrinking: station `i` sits at
`start_s + i * qp_delta_s`. -/
def baseBounds (adc_sl : SLBoundary) (rl : ReferenceLine)
    (start_s qp_delta_s : ℚ) (size : ℕ) : List (ℚ × ℚ) :=
  (List.range size).map
    (fun (i : ℕ) => baseBound adc_sl rl (start_s + (i : ℚ) * qp_delta_s))

/-- `find_s_iter(s)` as a station index: `begin + min(size, (size_t)((s - start_s)
/ qp_delta_s))`, decremented when it lands on `end`.  The C++ `double` to
`size_t` conversion truncates toward zero and is only defined when the
truncated quotient is representable, i.e. for quotients greater than `-1`; on
that domain it agrees with `Int.toNat` of the floor used here (quotients in
`(-1, 0]` convert to 0).  For a quotient `≤ -1` the source conversion is
undefined behavior, and this function's value 0 there is a totalization of
the embedding, not a behavior of the source. -/
def find_s_index (n : ℕ) (start_s qp_delta_s s : ℚ) : ℕ :=
  let idx := min n (((s - start_s) / qp_delta_s).floor.toNat)
  if idx = n then n - 1 else idx

/-- The per-obstacle body of the shrink loop in `GetLateralBounds`.  Returns
the bound list after this obstacle; `continue` paths return it unchanged. -/
def processObstacle (adc_sl : SLBoundary) (rl : ReferenceLine)
    (buffered_adc_width start_s qp_delta_s accumulated_s : ℚ)
    (bounds : List (ℚ × ℚ)) (ob : PathObstacle) : List (ℚ × ℚ) :=
  if ob.isStatic = false then bounds
  else if ob.sl.end_s < start_s ∨ ob.sl.start_s > accumulated_s then bounds
  else
    let n := bounds.length
    let a := find_s_index n start_s qp_delta_s ob.sl.start_s
    let b := find_s_index n start_s qp_delta_s ob.sl.end_s + 1
    match (bounds.drop a).take (b - a) with
    | [] => bounds
    | hd :: tl =>
      let l_lower := range_l_lower tl hd
      let l_upper := range_l_upper tl hd
      if ob.sl.start_l > l_upper ∨ ob.sl.end_l < l_lower then bounds
      else if ob.sl.end_s < adc_sl.end_s then
        if ob.sl.start_l > adc_sl.end_l then
          assign_pair_second bounds a b ob.sl.start_l
        else
          assign_pair_first bounds a b ob.sl.end_l
      else
        let left_remain := l_upper - ob.sl.end_l
        let right_remain := -l_lower + ob.sl.start_l
        let lu :=
          if left_remain > buffered_adc_width then
            (max l_lower ob.sl.end_l, l_upper)
          else if right_remain > buffered_adc_width then
            (l_lower, min l_upper ob.sl.start_l)
          else if ob.sl.start_l * ob.sl.end_l < 0 then
            (l_lower, l_upper)
          else
            let rw := rl.roadWidth ob.sl.start_s
            if ob.sl.start_l ≥ 0 then
              (max (ob.sl.start_l - buffered_adc_width) (-rw.2), ob.sl.start_l)
            else
              (ob.sl.end_l, min (ob.sl.end_l + buffered_adc_width) rw.1)
        assign_pair_second (assign_pair_first bounds a b lu.1) a b lu.2

/-- `QpPiecewiseJerkPathOptimizer::GetLateralBounds`.  `accumulated_s` after the
base loop equals `start_s + size * qp_delta_s`; the obstacle list stands for
`reference_line_info_->path_decision()->path_obstacles().Items()`. -/
def GetLateralBounds (cfg : QpConfig) (adc_sl : SLBoundary)
    (frenet_point : FrenetFramePoint) (rl : ReferenceLine)
    (obstacles : List PathObstacle) (path_length : ℚ) : List (ℚ × ℚ) :=
  let size := corridorSize path_length cfg.qp_delta_s
  let buffered_adc_width := adc_sl.end_l - adc_sl.start_l + cfg.lateral_buffer
  let start_s := frenet_point.s
  let accumulated_s := start_s + size * cfg.qp_delta_s
  obstacles.foldl
    (processObstacle adc_sl rl buffered_adc_width start_s cfg.qp_delta_s accumulated_s)
    (baseBounds adc_sl rl start_s cfg.qp_delta_s size)

/-- `apollo::common::ErrorCode`, restricted to the values this file uses. -/
inductive ErrorCode where
  | OK
  | PLANNING_ERROR
deriving DecidableEq, Repr

/-- `apollo::common::Status`: an error code with a message. -/
structure Status where
  code : ErrorCode
  msg : String
deriving DecidableEq, Repr

/-- The output container `PathData`, reduced to the fields `Process` writes. -/
structure PathData where
  referenceLine : Option ReferenceLine
  frenetPath : List FrenetFramePoint

/-- The external smoothing optimizer behind `lateral_qp_optimizer_`:
`optimize` reports success, `GetFrenetFramePath` yields the smoothed points
(station values relative to zero). -/
structure LateralQPOptimizer where
  optimize : ℚ × ℚ × ℚ → ℚ → List (ℚ × ℚ) → Bool
  getFrenetFramePath : ℚ × ℚ × ℚ → ℚ → List (ℚ × ℚ) → List FrenetFramePoint

/-- `QpPiecewiseJerkPathOptimizer::Process`.  `frenet_point` stands for
`reference_line.GetFrenetPoint(init_point)` and `adc_sl` for
`reference_line_info_->AdcSlBoundary()`; `init_v` is `init_point.v()`.
Returns the status together with the (possibly untouched) output container. -/
def Process (cfg : QpConfig) (is_init : Bool) (opt : LateralQPOptimizer)
    (adc_sl : SLBoundary) (rl : ReferenceLine) (frenet_point : FrenetFramePoint)
    (init_v : ℚ) (obstacles : List PathObstacle) (path_data : PathData) :
    Status × PathData :=
  if is_init = false then
    ({ code := ErrorCode.PLANNING_ERROR, msg := "Not init." }, path_data)
  else
    let path_length := max (cfg.min_look_ahead_time * init_v) cfg.min_look_ahead_distance
    let lateral_bounds := GetLateralBounds cfg adc_sl frenet_point rl obstacles path_length
    let lateral_state : ℚ × ℚ × ℚ := (frenet_point.l, frenet_point.dl, frenet_point.ddl)
    if opt.optimize lateral_state cfg.qp_delta_s lateral_bounds = false then
      ({ code := ErrorCode.PLANNING_ERROR, msg := "lateral qp optimizer failed" }, path_data)
    else
      let frenet_path :=
        (opt.getFrenetFramePath lateral_state cfg.qp_delta_s lateral_bounds).map
          (fun p => { s := frenet_point.s + p.s, l := p.l, dl := p.dl, ddl := p.ddl })
      ({ code := ErrorCode.OK, msg := "" },
       { referenceLine := some rl, frenetPath := frenet_path })

/-! ### Spec-side comparison definitions

These two definitions follow the spec's words (`l_lower = max(lower bounds in
range)`, `l_upper = min(upper bounds in range)`) rather than the source, to be
compared against `range_l_lower` / `range_l_upper` above. -/

/-- The spec's aggregate `l_lower`: the maximum of the lower bounds over the
range `hd :: tl`. -/
def spec_range_l_lower (tl : List (ℚ × ℚ)) (hd : ℚ × ℚ) : ℚ :=
  tl.foldl (fun m p => max m p.1) hd.1

/-- The spec's aggregate `l_upper`: the minimum of the upper bounds over the
range `hd :: tl`. -/
def spec_range_l_upper (tl : List (ℚ × ℚ)) (hd : ℚ × ℚ) : ℚ :=
  tl.foldl (fun m p => min m p.2) hd.2

/-! ### Concrete fixtures used by witnesses and counterexamples -/

/-- Configuration with zero buffer, unit station step and zero look-ahead
(forcing the minimum corridor size of 2). -/
def cfg_zero : QpConfig :=
  { lateral_buffer := 0, qp_delta_s := 1, min_look_ahead_time := 0,
    min_look_ahead_distance := 0 }

/-- Configuration like `cfg_zero` but with lateral buffer 2. -/
def cfg_buf2 : QpConfig :=
  { lateral_buffer := 2, qp_delta_s := 1, min_look_ahead_time := 0,
    min_look_ahead_distance := 0 }

/-- A Frenet start point at station 0. -/
def fp_zero : FrenetFramePoint := { s := 0, l := 0, dl := 0, ddl := 0 }

/-- A Frenet start point at station 50. -/
def fp_50 : FrenetFramePoint := { s := 50, l := 0, dl := 0, ddl := 0 }

/-- Uniform reference line: lane half-widths `(3, 3)`, road `(10, 10)`. -/
def rl_uniform : ReferenceLine :=
  { laneWidth := fun _ => (3, 3), roadWidth := fun _ => (10, 10) }

/-- Reference line whose lane bound intervals differ per station: station 0
yields `(0, 5)`, station 1 yields `(1, 2)`. -/
def rl_varA : ReferenceLine :=
  { laneWidth := fun s => if s < 1 then (5, 0) else (2, -1),
    roadWidth := fun _ => (10, 10) }

/-- Reference line whose lane bound intervals differ per station: station 0
yields `(-3, 3)`, station 1 yields `(-1, 1)`. -/
def rl_varB : ReferenceLine :=
  { laneWidth := fun s => if s < 1 then (3, 3) else (1, 1),
    roadWidth := fun _ => (10, 10) }

/-- ADC footprint sitting at lateral `[1, 2]`, ending at station 1/2. -/
def adc_A : SLBoundary := { start_s := 0, end_s := 1/2, start_l := 1, end_l := 2 }

/-- ADC footprint of lateral width 1 centred on the reference line. -/
def adc_B : SLBoundary := { start_s := 0, end_s := 10, start_l := -1/2, end_l := 1/2 }

/-- ADC footprint of lateral width 9/5 centred on the reference line. -/
def adc_C : SLBoundary := { start_s := 0, end_s := 10, start_l := -9/10, end_l := 9/10 }

/-- A static obstacle ahead of `adc_A` with lateral extent `[3, 4]`. -/
def ob_A : PathObstacle :=
  { isStatic := true, sl := { start_s := 0, end_s := 3, start_l := 3, end_l := 4 } }

/-- A static blocking obstacle straddling the reference line. -/
def ob_straddle : PathObstacle :=
  { isStatic := true, sl := { start_s := 0, end_s := 30, start_l := -1/2, end_l := 1/2 } }

/-- A static obstacle ahead with lateral extent `[1/2, 3/2]`. -/
def ob_mid : PathObstacle :=
  { isStatic := true, sl := { start_s := 0, end_s := 30, start_l := 1/2, end_l := 3/2 } }

/-- A static obstacle lying longitudinally past the last corridor station
(`s ∈ [3/2, 9/5]`, beyond station 1) with lateral extent `[1/2, 3/2]`. -/
def ob_far : PathObstacle :=
  { isStatic := true, sl := { start_s := 3/2, end_s := 9/5, start_l := 1/2, end_l := 3/2 } }

/-- A static obstacle whose lateral extent `[6, 7]` lies above every bound. -/
def ob_high : PathObstacle :=
  { isStatic := true, sl := { start_s := 0, end_s := 3, start_l := 6, end_l := 7 } }

/-- A non-static obstacle inside the longitudinal range. -/
def ob_dynamic : PathObstacle :=
  { isStatic := false, sl := { start_s := 0, end_s := 1, start_l := 0, end_l := 1 } }

/-- A static obstacle lying entirely before the corridor start. -/
def ob_before : PathObstacle :=
  { isStatic := true, sl := { start_s := -5, end_s := -1, start_l := 0, end_l := 1 } }

/-- A static obstacle starting strictly beyond `start_s + N·Δs = 2`. -/
def ob_beyond : PathObstacle :=
  { isStatic := true, sl := { start_s := 5/2, end_s := 3, start_l := 0, end_l := 1 } }

/-- A static obstacle starting two full steps before the corridor start
(`start_s = -2`) while still overlapping the corridor longitudinally. -/
def ob_early : PathObstacle :=
  { isStatic := true, sl := { start_s := -2, end_s := 1, start_l := 0, end_l := 1 } }

/-- ADC footprint protruding left of a lane of half-width 3 (`end_l = 4`). -/
def adc_D : SLBoundary := { start_s := 0, end_s := 10, start_l := 0, end_l := 4 }

/-- ADC footprint touching both edges of a lane of half-width 3 exactly. -/
def adc_E : SLBoundary := { start_s := 0, end_s := 10, start_l := -3, end_l := 3 }

/-- An optimizer that always succeeds and returns two fixed points at
relative stations 0 and `qp_delta_s`. -/
def opt_ok : LateralQPOptimizer :=
  { optimize := fun _ _ _ => true,
    getFrenetFramePath := fun _ d _ =>
      [{ s := 0, l := 1, dl := 2, ddl := 3 }, { s := d, l := 4, dl := 5, ddl := 6 }] }

/-- An optimizer that always reports failure. -/
def opt_fail : LateralQPOptimizer :=
  { optimize := fun _ _ _ => false,
    getFrenetFramePath := fun _ _ _ => [] }

/-- An initially empty output container. -/
def pd_empty : PathData := { referenceLine := none, frenetPath := [] }

/-! ### Helper lemmas -/

theorem assignRangeAux_getElem? (f : ℚ × ℚ → ℚ × ℚ) (a b : ℕ) :
    ∀ (l : List (ℚ × ℚ)) (k j : ℕ),
      (assignRangeAux f a b k l)[j]?
        = (l[j]?).map (fun p => if a ≤ k + j ∧ k + j < b then f p else p) := by
  intro l
  induction l with
  | nil => intro k j; simp [assignRangeAux]
  | cons p rest ih =>
      intro k j
      cases j with
      | zero => simp [assignRangeAux]
      | succ j =>
          have h := ih (k + 1) j
          have e : k + 1 + j = k + (j + 1) := by omega
          rw [e] at h
          simpa [assignRangeAux] using h

theorem assignRangeAux_length (f : ℚ × ℚ → ℚ × ℚ) (a b : ℕ) :
    ∀ (l : List (ℚ × ℚ)) (k : ℕ), (assignRangeAux f a b k l).length = l.length := by
  intro l
  induction l with
  | nil => intro k; rfl
  | cons p rest ih => intro k; simp [assignRangeAux, ih]

theorem assign_pair_first_getElem? (bounds : List (ℚ × ℚ)) (a b : ℕ) (v : ℚ) (i : ℕ) :
    (assign_pair_first bounds a b v)[i]?
      = (bounds[i]?).map (fun p => if a ≤ i ∧ i < b then (v, p.2) else p) := by
  simpa using assignRangeAux_getElem? (fun p => (v, p.2)) a b bounds 0 i

theorem assign_pair_second_getElem? (bounds : List (ℚ × ℚ)) (a b : ℕ) (v : ℚ) (i : ℕ) :
    (assign_pair_second bounds a b v)[i]?
      = (bounds[i]?).map (fun p => if a ≤ i ∧ i < b then (p.1, v) else p) := by
  simpa using assignRangeAux_getElem? (fun p => (p.1, v)) a b bounds 0 i

theorem assign_pair_first_outside (bounds : List (ℚ × ℚ)) (a b : ℕ) (v : ℚ) (i : ℕ)
    (h : i < a ∨ b ≤ i) : (assign_pair_first bounds a b v)[i]? = bounds[i]? := by
  rw [assign_pair_first_getElem?]
  have hcond : ¬(a ≤ i ∧ i < b) := by omega
  cases bounds[i]? with
  | none => rfl
  | some p => simp [hcond]

theorem assign_pair_second_outside (bounds : List (ℚ × ℚ)) (a b : ℕ) (v : ℚ) (i : ℕ)
    (h : i < a ∨ b ≤ i) : (assign_pair_second bounds a b v)[i]? = bounds[i]? := by
  rw [assign_pair_second_getElem?]
  have hcond : ¬(a ≤ i ∧ i < b) := by omega
  cases bounds[i]? with
  | none => rfl
  | some p => simp [hcond]

theorem min_pair_first_mem (tl : List (ℚ × ℚ)) (hd : ℚ × ℚ) :
    min_pair_first tl hd ∈ hd :: tl := by
  induction tl generalizing hd with
  | nil => exact List.mem_singleton.mpr rfl
  | cons q rest ih =>
      have hmin : min_pair_first (q :: rest) hd
          = min_pair_first rest (if q.1 < hd.1 then q else hd) := rfl
      rw [hmin]
      rcases List.mem_cons.mp (ih (if q.1 < hd.1 then q else hd)) with h | h
      · rw [h]
        by_cases hq : q.1 < hd.1
        · rw [if_pos hq]
          exact List.mem_cons.mpr (Or.inr (List.mem_cons_self q rest))
        · rw [if_neg hq]
          exact List.mem_cons_self hd _
      · exact List.mem_cons.mpr (Or.inr (List.mem_cons.mpr (Or.inr h)))

theorem max_pair_second_mem (tl : List (ℚ × ℚ)) (hd : ℚ × ℚ) :
    max_pair_second tl hd ∈ hd :: tl := by
  induction tl generalizing hd with
  | nil => exact List.mem_singleton.mpr rfl
  | cons q rest ih =>
      have hmax : max_pair_second (q :: rest) hd
          = max_pair_second rest (if hd.2 < q.2 then q else hd) := rfl
      rw [hmax]
      rcases List.mem_cons.mp (ih (if hd.2 < q.2 then q else hd)) with h | h
      · rw [h]
        by_cases hq : hd.2 < q.2
        · rw [if_pos hq]
          exact List.mem_cons.mpr (Or.inr (List.mem_cons_self q rest))
        · rw [if_neg hq]
          exact List.mem_cons_self hd _
      · exact List.mem_cons.mpr (Or.inr (List.mem_cons.mpr (Or.inr h)))

theorem min_pair_first_le (tl : List (ℚ × ℚ)) (hd : ℚ × ℚ) :
    ∀ p ∈ hd :: tl, (min_pair_first tl hd).1 ≤ p.1 := by
  induction tl generalizing hd with
  | nil =>
      intro p hp
      rw [List.mem_singleton] at hp
      subst hp
      exact le_refl _
  | cons q rest ih =>
      intro p hp
      have hmin : min_pair_first (q :: rest) hd
          = min_pair_first rest (if q.1 < hd.1 then q else hd) := rfl
      rw [hmin]
      have hch : (if q.1 < hd.1 then q else hd).1 ≤ hd.1 := by
        by_cases hq : q.1 < hd.1
        · rw [if_pos hq]; exact le_of_lt hq
        · rw [if_neg hq]
      have hcq : (if q.1 < hd.1 then q else hd).1 ≤ q.1 := by
        by_cases hq : q.1 < hd.1
        · rw [if_pos hq]
        · rw [if_neg hq]; exact le_of_not_lt hq
      have hhead := ih (if q.1 < hd.1 then q else hd) _ (List.mem_cons_self _ rest)
      rcases List.mem_cons.mp hp with h | h
      · subst h; exact le_trans hhead hch
      · rcases List.mem_cons.mp h with h | h
        · subst h; exact le_trans hhead hcq
        · exact ih (if q.1 < hd.1 then q else hd) p (List.mem_cons.mpr (Or.inr h))

theorem max_pair_second_ge (tl : List (ℚ × ℚ)) (hd : ℚ × ℚ) :
    ∀ p ∈ hd :: tl, p.2 ≤ (max_pair_second tl hd).2 := by
  induction tl generalizing hd with
  | nil =>
      intro p hp
      rw [List.mem_singleton] at hp
      subst hp
      exact le_refl _
  | cons q rest ih =>
      intro p hp
      have hmax : max_pair_second (q :: rest) hd
          = max_pair_second rest (if hd.2 < q.2 then q else hd) := rfl
      rw [hmax]
      have hch : hd.2 ≤ (if hd.2 < q.2 then q else hd).2 := by
        by_cases hq : hd.2 < q.2
        · rw [if_pos hq]; exact le_of_lt hq
        · rw [if_neg hq]
      have hcq : q.2 ≤ (if hd.2 < q.2 then q else hd).2 := by
        by_cases hq : hd.2 < q.2
        · rw [if_pos hq]
        · rw [if_neg hq]; exact le_of_not_lt hq
      have hhead := ih (if hd.2 < q.2 then q else hd) _ (List.mem_cons_self _ rest)
      rcases List.mem_cons.mp hp with h | h
      · subst h; exact le_trans hch hhead
      · rcases List.mem_cons.mp h with h | h
        · subst h; exact le_trans hcq hhead
        · exact ih (if hd.2 < q.2 then q else hd) p (List.mem_cons.mpr (Or.inr h))

theorem find_s_index_lt (n : ℕ) (start_s qp_delta_s s : ℚ) (hn : 1 ≤ n) :
    find_s_index n start_s qp_delta_s s < n := by
  rw [find_s_index]
  by_cases h : min n (((s - start_s) / qp_delta_s).floor.toNat) = n
  · rw [if_pos h]; omega
  · rw [if_neg h]
    have := Nat.min_le_left n (((s - start_s) / qp_delta_s).floor.toNat)
    omega

theorem processObstacle_irrelevant (adc_sl : SLBoundary) (rl : ReferenceLine)
    (buffered start_s qp_delta_s accumulated_s : ℚ)
    (bounds : List (ℚ × ℚ)) (ob : PathObstacle)
    (h : ob.isStatic = false ∨ ob.sl.end_s < start_s ∨ ob.sl.start_s > accumulated_s) :
    processObstacle adc_sl rl buffered start_s qp_delta_s accumulated_s bounds ob
      = bounds := by
  rcases h with h | h
  · simp [processObstacle, h]
  · rw [processObstacle]
    by_cases hs : ob.isStatic = false
    · rw [if_pos hs]
    · rw [if_neg hs, if_pos h]

theorem processObstacle_lateral_skip (adc_sl : SLBoundary) (rl : ReferenceLine)
    (buffered start_s qp_delta_s accumulated_s : ℚ)
    (bounds : List (ℚ × ℚ)) (ob : PathObstacle) (hd : ℚ × ℚ) (tl : List (ℚ × ℚ))
    (hstatic : ob.isStatic = true)
    (hlong : ¬(ob.sl.end_s < start_s ∨ ob.sl.start_s > accumulated_s))
    (hseg : (bounds.drop (find_s_index bounds.length start_s qp_delta_s ob.sl.start_s)).take
        (find_s_index bounds.length start_s qp_delta_s ob.sl.end_s + 1
          - find_s_index bounds.length start_s qp_delta_s ob.sl.start_s) = hd :: tl)
    (hskip : ob.sl.start_l > range_l_upper tl hd ∨ ob.sl.end_l < range_l_lower tl hd) :
    processObstacle adc_sl rl buffered start_s qp_delta_s accumulated_s bounds ob
      = bounds := by
  simp only [processObstacle, hstatic, hseg]
  rw [if_neg hlong, if_pos hskip]
  simp

theorem processObstacle_pass_left (adc_sl : SLBoundary) (rl : ReferenceLine)
    (buffered start_s qp_delta_s accumulated_s : ℚ)
    (bounds : List (ℚ × ℚ)) (ob : PathObstacle) (hd : ℚ × ℚ) (tl : List (ℚ × ℚ))
    (hstatic : ob.isStatic = true)
    (hlong : ¬(ob.sl.end_s < start_s ∨ ob.sl.start_s > accumulated_s))
    (hseg : (bounds.drop (find_s_index bounds.length start_s qp_delta_s ob.sl.start_s)).take
        (find_s_index bounds.length start_s qp_delta_s ob.sl.end_s + 1
          - find_s_index bounds.length start_s qp_delta_s ob.sl.start_s) = hd :: tl)
    (hskip : ¬(ob.sl.start_l > range_l_upper tl hd ∨ ob.sl.end_l < range_l_lower tl hd))
    (hpar : ¬(ob.sl.end_s < adc_sl.end_s))
    (hL : range_l_upper tl hd - ob.sl.end_l > buffered) :
    processObstacle adc_sl rl buffered start_s qp_delta_s accumulated_s bounds ob
      = assign_pair_second
          (assign_pair_first bounds
            (find_s_index bounds.length start_s qp_delta_s ob.sl.start_s)
            (find_s_index bounds.length start_s qp_delta_s ob.sl.end_s + 1)
            (max (range_l_lower tl hd) ob.sl.end_l))
          (find_s_index bounds.length start_s qp_delta_s ob.sl.start_s)
          (find_s_index bounds.length start_s qp_delta_s ob.sl.end_s + 1)
          (range_l_upper tl hd) := by
  simp only [processObstacle, hstatic, hseg]
  rw [if_neg hlong, if_neg hskip, if_neg hpar, if_pos hL]
  simp

theorem processObstacle_pass_right (adc_sl : SLBoundary) (rl : ReferenceLine)
    (buffered start_s qp_delta_s accumulated_s : ℚ)
    (bounds : List (ℚ × ℚ)) (ob : PathObstacle) (hd : ℚ × ℚ) (tl : List (ℚ × ℚ))
    (hstatic : ob.isStatic = true)
    (hlong : ¬(ob.sl.end_s < start_s ∨ ob.sl.start_s > accumulated_s))
    (hseg : (bounds.drop (find_s_index bounds.length start_s qp_delta_s ob.sl.start_s)).take
        (find_s_index bounds.length start_s qp_delta_s ob.sl.end_s + 1
          - find_s_index bounds.length start_s qp_delta_s ob.sl.start_s) = hd :: tl)
    (hskip : ¬(ob.sl.start_l > range_l_upper tl hd ∨ ob.sl.end_l < range_l_lower tl hd))
    (hpar : ¬(ob.sl.end_s < adc_sl.end_s))
    (hL : ¬(range_l_upper tl hd - ob.sl.end_l > buffered))
    (hR : -(range_l_lower tl hd) + ob.sl.start_l > buffered) :
    processObstacle adc_sl rl buffered start_s qp_delta_s accumulated_s bounds ob
      = assign_pair_second
          (assign_pair_first bounds
            (find_s_index bounds.length start_s qp_delta_s ob.sl.start_s)
            (find_s_index bounds.length start_s qp_delta_s ob.sl.end_s + 1)
            (range_l_lower tl hd))
          (find_s_index bounds.length start_s qp_delta_s ob.sl.start_s)
          (find_s_index bounds.length start_s qp_delta_s ob.sl.end_s + 1)
          (min (range_l_upper tl hd) ob.sl.start_l) := by
  simp only [processObstacle, hstatic, hseg]
  rw [if_neg hlong, if_neg hskip, if_neg hpar, if_neg hL, if_pos hR]
  simp

unseal Rat.add Rat.sub Rat.mul Rat.inv

/-! ### Claim theorems -/

/-- C1, counterexample: in a two-station corridor with base bounds
`[(0, 5), (1, 2)]`, the spec's aggregates over the full range are
`l_lower = 1`, `l_upper = 2`, and the obstacle `ob_A` (lateral `[3, 4]`)
misses `[1, 2]`, so by the claim it would be skipped as laterally irrelevant
and the corridor left equal to the obstacle-free corridor; the source instead
uses `l_lower = 0`, `l_upper = 5` (which `[3, 4]` intersects) and shrinks the
corridor, so the two outputs differ. -/
theorem c1_counterexample_range_aggregation :
    range_l_lower [(1, 2)] (0, 5) = 0
    ∧ range_l_upper [(1, 2)] (0, 5) = 5
    ∧ spec_range_l_lower [(1, 2)] (0, 5) = 1
    ∧ spec_range_l_upper [(1, 2)] (0, 5) = 2
    ∧ ob_A.isStatic = true
    ∧ ¬(ob_A.sl.end_s < fp_zero.s ∨ ob_A.sl.start_s > fp_zero.s + 2 * 1)
    ∧ corridorSize 0 cfg_zero.qp_delta_s = 2
    ∧ baseBounds adc_A rl_varA 0 1 2 = [(0, 5), (1, 2)]
    ∧ ob_A.sl.start_l > spec_range_l_upper [(1, 2)] (0, 5)
    ∧ GetLateralBounds cfg_zero adc_A fp_zero rl_varA [ob_A] 0
        ≠ GetLateralBounds cfg_zero adc_A fp_zero rl_varA [] 0 := by
  decide

/-- C1 (amended): for every obstacle the Corridor Builder processes (static,
in longitudinal range, with nonempty station segment `hd :: tl`), the values
it aggregates are `l_lower` = the lower bound of the first interval in the
segment attaining the maximal upper bound, and `l_upper` = the upper bound of
the first interval attaining the minimal lower bound (not the max of lower
bounds and min of upper bounds), and exactly these values drive the
lateral-irrelevance skip test: an obstacle whose lateral extent misses
`[l_lower, l_upper]` leaves the corridor unchanged. -/
theorem c1_range_aggregates (adc_sl : SLBoundary) (rl : ReferenceLine)
    (buffered start_s qp_delta_s accumulated_s : ℚ)
    (bounds : List (ℚ × ℚ)) (ob : PathObstacle) (hd : ℚ × ℚ) (tl : List (ℚ × ℚ))
    (hstatic : ob.isStatic = true)
    (hlong : ¬(ob.sl.end_s < start_s ∨ ob.sl.start_s > accumulated_s))
    (hseg : (bounds.drop (find_s_index bounds.length start_s qp_delta_s ob.sl.start_s)).take
        (find_s_index bounds.length start_s qp_delta_s ob.sl.end_s + 1
          - find_s_index bounds.length start_s qp_delta_s ob.sl.start_s) = hd :: tl) :
    (max_pair_second tl hd ∈ hd :: tl
      ∧ range_l_lower tl hd = (max_pair_second tl hd).1
      ∧ ∀ p ∈ hd :: tl, p.2 ≤ (max_pair_second tl hd).2)
    ∧ (min_pair_first tl hd ∈ hd :: tl
      ∧ range_l_upper tl hd = (min_pair_first tl hd).2
      ∧ ∀ p ∈ hd :: tl, (min_pair_first tl hd).1 ≤ p.1)
    ∧ ((ob.sl.start_l > range_l_upper tl hd ∨ ob.sl.end_l < range_l_lower tl hd) →
        processObstacle adc_sl rl buffered start_s qp_delta_s accumulated_s bounds ob
          = bounds) :=
  ⟨⟨max_pair_second_mem tl hd, rfl, max_pair_second_ge tl hd⟩,
   ⟨min_pair_first_mem tl hd, rfl, min_pair_first_le tl hd⟩,
   fun hskip => processObstacle_lateral_skip adc_sl rl buffered start_s qp_delta_s
     accumulated_s bounds ob hd tl hstatic hlong hseg hskip⟩

/-- C1, witness: the amended statement evaluated on the two-station corridor
`[(0, 5), (1, 2)]` and the laterally distant obstacle `ob_high`. -/
theorem c1_range_aggregates_witness :
    max_pair_second [(1, 2)] (0, 5) ∈ ((0, 5) : ℚ × ℚ) :: [(1, 2)]
    ∧ range_l_lower [(1, 2)] (0, 5) = (max_pair_second [(1, 2)] (0, 5)).1
    ∧ ((1, 2) : ℚ × ℚ).2 ≤ (max_pair_second [(1, 2)] (0, 5)).2
    ∧ range_l_upper [(1, 2)] (0, 5) = (min_pair_first [(1, 2)] (0, 5)).2
    ∧ (min_pair_first [(1, 2)] (0, 5)).1 ≤ ((0, 5) : ℚ × ℚ).1
    ∧ processObstacle adc_A rl_varA 1 0 1 2 [(0, 5), (1, 2)] ob_high
        = [(0, 5), (1, 2)] := by
  have h := c1_range_aggregates adc_A rl_varA 1 0 1 2 [(0, 5), (1, 2)] ob_high
    (0, 5) [(1, 2)] (by decide) (by decide) (by decide)
  exact ⟨h.1.1, h.1.2.1, h.1.2.2 (1, 2) (by simp), h.2.1.2.1,
    h.2.1.2.2 (0, 5) (by simp), h.2.2 (by decide)⟩

/-- C2: the claim is right and the code wrong.  With base corridor
`[(-3, 3), (-1, 1)]`, the straddling blocking obstacle `ob_straddle`
(`start_l·end_l < 0`, neither remain exceeds `bufferedWidth = 3`) is supposed
to leave every interval in its range untouched — and the source's own comment
says "path will not be affected by this obstacle" — yet the source still runs
the final `assign_pair_first`/`assign_pair_second` overwrite with the
aggregated `(-3, 3)`, flattening station 1's interval from `(-1, 1)` to
`(-3, 3)`. -/
theorem c2_straddling_blocker_still_overwrites :
    ob_straddle.sl.start_l * ob_straddle.sl.end_l < 0
    ∧ range_l_upper [(-1, 1)] (-3, 3) - ob_straddle.sl.end_l
        ≤ adc_B.end_l - adc_B.start_l + cfg_buf2.lateral_buffer
    ∧ -(range_l_lower [(-1, 1)] (-3, 3)) + ob_straddle.sl.start_l
        ≤ adc_B.end_l - adc_B.start_l + cfg_buf2.lateral_buffer
    ∧ GetLateralBounds cfg_buf2 adc_B fp_zero rl_varB [] 0 = [(-3, 3), (-1, 1)]
    ∧ GetLateralBounds cfg_buf2 adc_B fp_zero rl_varB [ob_straddle] 0
        = [(-3, 3), (-3, 3)] := by
  decide

/-- C3: the claimed low-end clamp is not program behavior.  The static
obstacle `ob_early` (`start_s = -2` with `startPoint.s = 0`, step 1, `N = 2`)
passes the longitudinal filter and so reaches `find_s_iter(start_s)`, where
the quotient `(start_s − startPoint.s)/step = -2` is `≤ -1`: there the source's
`double` to `size_t` conversion is undefined behavior in C++ (no clamp to
index 0 exists in the program; the claim's `clamp(·, 0, N−1)` is defined
behavior only for quotients greater than `-1`).  On that defined domain the
mapping does behave as claimed: a quotient in `(-1, 0]` converts to index 0,
and a station at or past the horizon clamps to `N − 1`. -/
theorem c3_negative_station_conversion_bug :
    ob_early.isStatic = true
    ∧ ¬(ob_early.sl.end_s < fp_zero.s
        ∨ ob_early.sl.start_s > fp_zero.s
            + (corridorSize 0 cfg_zero.qp_delta_s : ℚ) * cfg_zero.qp_delta_s)
    ∧ (ob_early.sl.start_s - fp_zero.s) / cfg_zero.qp_delta_s ≤ -1
    ∧ find_s_index 2 0 1 (-1/2) = 0
    ∧ find_s_index 2 0 1 5 = 2 - 1 := by
  decide

/-- C4: for a static ahead/general obstacle with lateral overlap, if
`leftRemain = l_upper − end_l` exceeds `bufferedWidth`, every interval in the
obstacle's station range becomes `(obstacle.end_l, l_upper)` — lower bound
raised to the obstacle's `end_l`, upper bound kept at `l_upper`; otherwise, if
`rightRemain = start_l − l_lower` exceeds `bufferedWidth`, every interval
becomes `(l_lower, obstacle.start_l)`. -/
theorem c4_general_obstacle_bypass (adc_sl : SLBoundary) (rl : ReferenceLine)
    (buffered start_s qp_delta_s accumulated_s : ℚ)
    (bounds : List (ℚ × ℚ)) (ob : PathObstacle) (hd : ℚ × ℚ) (tl : List (ℚ × ℚ))
    (hstatic : ob.isStatic = true)
    (hlong : ¬(ob.sl.end_s < start_s ∨ ob.sl.start_s > accumulated_s))
    (hseg : (bounds.drop (find_s_index bounds.length start_s qp_delta_s ob.sl.start_s)).take
        (find_s_index bounds.length start_s qp_delta_s ob.sl.end_s + 1
          - find_s_index bounds.length start_s qp_delta_s ob.sl.start_s) = hd :: tl)
    (hskip : ¬(ob.sl.start_l > range_l_upper tl hd ∨ ob.sl.end_l < range_l_lower tl hd))
    (hpar : ¬(ob.sl.end_s < adc_sl.end_s)) :
    (range_l_upper tl hd - ob.sl.end_l > buffered →
      ∀ i, find_s_index bounds.length start_s qp_delta_s ob.sl.start_s ≤ i →
        i < find_s_index bounds.length start_s qp_delta_s ob.sl.end_s + 1 →
        (processObstacle adc_sl rl buffered start_s qp_delta_s accumulated_s bounds ob)[i]?
          = some (ob.sl.end_l, range_l_upper tl hd))
    ∧ (¬(range_l_upper tl hd - ob.sl.end_l > buffered) →
        -(range_l_lower tl hd) + ob.sl.start_l > buffered →
      ∀ i, find_s_index bounds.length start_s qp_delta_s ob.sl.start_s ≤ i →
        i < find_s_index bounds.length start_s qp_delta_s ob.sl.end_s + 1 →
        (processObstacle adc_sl rl buffered start_s qp_delta_s accumulated_s bounds ob)[i]?
          = some (range_l_lower tl hd, ob.sl.start_l)) := by
  have hn : 1 ≤ bounds.length := by
    rcases bounds with _ | ⟨p, rest⟩
    · simp at hseg
    · simp
  push_neg at hskip
  constructor
  · intro hL i hai hbi
    have hilen : i < bounds.length := by
      have := find_s_index_lt bounds.length start_s qp_delta_s ob.sl.end_s hn
      omega
    rw [processObstacle_pass_left adc_sl rl buffered start_s qp_delta_s accumulated_s
      bounds ob hd tl hstatic hlong hseg (by push_neg; exact hskip) hpar hL]
    rw [assign_pair_second_getElem?, assign_pair_first_getElem?,
      List.getElem?_eq_getElem hilen]
    simp only [Option.map_some']
    rw [if_pos ⟨hai, hbi⟩, if_pos ⟨hai, hbi⟩]
    rw [max_eq_right hskip.2]
  · intro hL hR i hai hbi
    have hilen : i < bounds.length := by
      have := find_s_index_lt bounds.length start_s qp_delta_s ob.sl.end_s hn
      omega
    rw [processObstacle_pass_right adc_sl rl buffered start_s qp_delta_s accumulated_s
      bounds ob hd tl hstatic hlong hseg (by push_neg; exact hskip) hpar hL hR]
    rw [assign_pair_second_getElem?, assign_pair_first_getElem?,
      List.getElem?_eq_getElem hilen]
    simp only [Option.map_some']
    rw [if_pos ⟨hai, hbi⟩, if_pos ⟨hai, hbi⟩]
    rw [min_eq_right hskip.1]

/-- C4, witness: the spec's example — uniform corridor `(−3, 3)`, obstacle
lateral `[1/2, 3/2]` ahead, `bufferedWidth = 9/5`: `leftRemain = 3/2` does not
exceed the buffer, `rightRemain = 7/2` does, so station 1 becomes
`(l_lower, start_l) = (−3, 1/2)`. -/
theorem c4_general_obstacle_bypass_witness :
    ¬(range_l_upper [(-3, 3)] (-3, 3) - ob_mid.sl.end_l > 9/5)
    ∧ -(range_l_lower [(-3, 3)] (-3, 3)) + ob_mid.sl.start_l > 9/5
    ∧ (processObstacle adc_C rl_uniform (9/5) 0 1 2 [(-3, 3), (-3, 3)] ob_mid)[1]?
        = some (range_l_lower [(-3, 3)] (-3, 3), ob_mid.sl.start_l)
    ∧ some (range_l_lower [(-3, 3)] (-3, 3), ob_mid.sl.start_l)
        = some ((-3 : ℚ), (1/2 : ℚ)) := by
  have h := c4_general_obstacle_bypass adc_C rl_uniform (9/5) 0 1 2 [(-3, 3), (-3, 3)]
    ob_mid (-3, 3) [(-3, 3)] (by decide) (by decide) (by decide) (by decide) (by decide)
  exact ⟨by decide, by decide,
    h.2 (by decide) (by decide) 1 (by decide) (by decide), by decide⟩

theorem foldl_processObstacle_irrelevant (adc_sl : SLBoundary) (rl : ReferenceLine)
    (buffered start_s qp_delta_s accumulated_s : ℚ) :
    ∀ (l : List PathObstacle) (init : List (ℚ × ℚ)),
      (∀ ob ∈ l, ob.isStatic = false ∨ ob.sl.end_s < start_s ∨ ob.sl.start_s > accumulated_s) →
      l.foldl (processObstacle adc_sl rl buffered start_s qp_delta_s accumulated_s) init
        = init := by
  intro l
  induction l with
  | nil => intro init h; rfl
  | cons ob rest ih =>
      intro init h
      rw [List.foldl_cons, processObstacle_irrelevant adc_sl rl buffered start_s qp_delta_s
        accumulated_s init ob (h ob (List.mem_cons_self ob rest))]
      exact ih init (fun o ho => h o (List.mem_cons.mpr (Or.inr ho)))

/-- C5 (amended): an obstacle participates in corridor shrinking only if it is
static and its longitudinal extent meets `[startPoint.s, startPoint.s + N·Δs]`
— one full step beyond the last station `s_{N−1}`, not `s_{N−1}` itself. Every
non-static obstacle, and every obstacle entirely before `startPoint.s` or
starting strictly beyond `startPoint.s + N·Δs`, leaves every bound interval
unchanged. -/
theorem c5_longitudinal_filter (cfg : QpConfig) (adc_sl : SLBoundary)
    (fp : FrenetFramePoint) (rl : ReferenceLine) (obstacles : List PathObstacle)
    (path_length : ℚ)
    (h : ∀ ob ∈ obstacles, ob.isStatic = false ∨ ob.sl.end_s < fp.s
        ∨ ob.sl.start_s > fp.s + (corridorSize path_length cfg.qp_delta_s : ℚ) * cfg.qp_delta_s) :
    GetLateralBounds cfg adc_sl fp rl obstacles path_length
      = GetLateralBounds cfg adc_sl fp rl [] path_length := by
  simp only [GetLateralBounds, List.foldl_nil]
  exact foldl_processObstacle_irrelevant adc_sl rl _ fp.s cfg.qp_delta_s _ obstacles _ h

/-- C5, witness: a non-static obstacle, an obstacle entirely before the start,
and one starting beyond `start_s + N·Δs = 2` together leave the corridor
identical to the obstacle-free one. -/
theorem c5_longitudinal_filter_witness :
    GetLateralBounds cfg_buf2 adc_B fp_zero rl_uniform [ob_dynamic, ob_before, ob_beyond] 0
      = GetLateralBounds cfg_buf2 adc_B fp_zero rl_uniform [] 0 :=
  c5_longitudinal_filter cfg_buf2 adc_B fp_zero rl_uniform
    [ob_dynamic, ob_before, ob_beyond] 0 (by decide)

/-- C5, counterexample: with `N = 2`, step 1, start 0 — last station
`s_{N−1} = 1` — the static obstacle `ob_far` lies entirely beyond the last
station (`start_s = 3/2 > 1`), so by the claim every bound interval would stay
unchanged; the source's filter only discards obstacles past
`start_s + N·Δs = 2`, so `ob_far` still shrinks station 1's interval and the
corridor differs from the obstacle-free one. -/
theorem c5_counterexample_horizon_filter :
    ob_far.isStatic = true
    ∧ corridorSize 0 cfg_buf2.qp_delta_s = 2
    ∧ ob_far.sl.start_s > fp_zero.s + (2 - 1 : ℚ) * cfg_buf2.qp_delta_s
    ∧ GetLateralBounds cfg_buf2 adc_B fp_zero rl_uniform [ob_far] 0
        ≠ GetLateralBounds cfg_buf2 adc_B fp_zero rl_uniform [] 0 := by
  decide

/-- C6: at every station where the vehicle's footprint extends strictly left
of the lane (`end_l > laneLeft`), the base corridor bound is
`(−laneRight, min vehicle.end_l roadLeft)` — the off-lane side widened to the
road edge clipped by the vehicle's own extent, the other side keeping the
lane width. -/
theorem c6_off_lane_left_widening (adc_sl : SLBoundary) (rl : ReferenceLine)
    (start_s qp_delta_s : ℚ) (size i : ℕ) (hi : i < size)
    (hoff : adc_sl.end_l > (rl.laneWidth (start_s + i * qp_delta_s)).1) :
    (baseBounds adc_sl rl start_s qp_delta_s size)[i]?
      = some (-(rl.laneWidth (start_s + i * qp_delta_s)).2,
              min adc_sl.end_l (rl.roadWidth (start_s + i * qp_delta_s)).1) := by
  rw [baseBounds, List.getElem?_map, List.getElem?_range hi]
  simp [baseBound, hoff]

/-- C6, witness: footprint `[0, 4]` against a lane of half-width 3 and road
half-width 10 at station 0 gives bound `(−3, min 4 10) = (−3, 4)`. -/
theorem c6_off_lane_left_widening_witness :
    (baseBounds adc_D rl_uniform 0 1 2)[0]? = some ((-3 : ℚ), (4 : ℚ)) :=
  (c6_off_lane_left_widening adc_D rl_uniform 0 1 2 0 (by decide) (by decide)).trans
    (by decide)

/-- C7: when initialized and the external optimizer succeeds, `Process`
returns OK, attaches the reference line, and the output path is exactly the
optimizer's points with `startPoint.s` added to each station value, all other
point fields unchanged. -/
theorem c7_success_reanchoring (cfg : QpConfig) (opt : LateralQPOptimizer)
    (adc_sl : SLBoundary) (rl : ReferenceLine) (fp : FrenetFramePoint)
    (init_v : ℚ) (obstacles : List PathObstacle) (path_data : PathData)
    (hopt : opt.optimize (fp.l, fp.dl, fp.ddl) cfg.qp_delta_s
        (GetLateralBounds cfg adc_sl fp rl obstacles
          (max (cfg.min_look_ahead_time * init_v) cfg.min_look_ahead_distance)) = true) :
    (Process cfg true opt adc_sl rl fp init_v obstacles path_data).1
        = { code := ErrorCode.OK, msg := "" }
    ∧ (Process cfg true opt adc_sl rl fp init_v obstacles path_data).2.referenceLine
        = some rl
    ∧ ∀ (i : ℕ), (Process cfg true opt adc_sl rl fp init_v obstacles path_data).2.frenetPath[i]?
        = ((opt.getFrenetFramePath (fp.l, fp.dl, fp.ddl) cfg.qp_delta_s
            (GetLateralBounds cfg adc_sl fp rl obstacles
              (max (cfg.min_look_ahead_time * init_v) cfg.min_look_ahead_distance)))[i]?).map
            (fun (p : FrenetFramePoint) =>
              ({ s := fp.s + p.s, l := p.l, dl := p.dl, ddl := p.ddl }
                : FrenetFramePoint)) := by
  simp only [Process]
  rw [if_neg (by simp), if_neg (by simp [hopt])]
  exact ⟨rfl, rfl, fun i => by simp [List.getElem?_map]⟩

/-- C7, witness: optimizer output at relative stations `[0, Δs]` with
`startPoint.s = 50` and `Δs = 1` yields path stations `[50, 51]`, other fields
unchanged, status OK, reference line attached. -/
theorem c7_success_reanchoring_witness :
    (Process cfg_zero true opt_ok adc_B rl_uniform fp_50 0 [] pd_empty).1
        = { code := ErrorCode.OK, msg := "" }
    ∧ (Process cfg_zero true opt_ok adc_B rl_uniform fp_50 0 [] pd_empty).2.referenceLine
        = some rl_uniform
    ∧ (Process cfg_zero true opt_ok adc_B rl_uniform fp_50 0 [] pd_empty).2.frenetPath[0]?
        = some { s := 50, l := 1, dl := 2, ddl := 3 }
    ∧ (Process cfg_zero true opt_ok adc_B rl_uniform fp_50 0 [] pd_empty).2.frenetPath[1]?
        = some { s := 51, l := 4, dl := 5, ddl := 6 } := by
  have h := c7_success_reanchoring cfg_zero opt_ok adc_B rl_uniform fp_50 0 [] pd_empty rfl
  exact ⟨h.1, h.2.1, (h.2.2 0).trans (by decide), (h.2.2 1).trans (by decide)⟩

/-- C8: calling `Process` before initialization returns the not-initialized
planning error and returns the output container untouched, for every input. -/
theorem c8_not_initialized (cfg : QpConfig) (opt : LateralQPOptimizer)
    (adc_sl : SLBoundary) (rl : ReferenceLine) (fp : FrenetFramePoint)
    (init_v : ℚ) (obstacles : List PathObstacle) (path_data : PathData) :
    Process cfg false opt adc_sl rl fp init_v obstacles path_data
      = ({ code := ErrorCode.PLANNING_ERROR, msg := "Not init." }, path_data) := rfl

/-- C9: whenever the external optimizer reports failure, `Process` returns
the optimization-failed planning error and the output container untouched,
regardless of the corridor's content, with no retry. -/
theorem c9_optimizer_failure (cfg : QpConfig) (opt : LateralQPOptimizer)
    (adc_sl : SLBoundary) (rl : ReferenceLine) (fp : FrenetFramePoint)
    (init_v : ℚ) (obstacles : List PathObstacle) (path_data : PathData)
    (hfail : opt.optimize (fp.l, fp.dl, fp.ddl) cfg.qp_delta_s
        (GetLateralBounds cfg adc_sl fp rl obstacles
          (max (cfg.min_look_ahead_time * init_v) cfg.min_look_ahead_distance)) = false) :
    Process cfg true opt adc_sl rl fp init_v obstacles path_data
      = ({ code := ErrorCode.PLANNING_ERROR, msg := "lateral qp optimizer failed" },
         path_data) := by
  simp only [Process]
  rw [if_neg (by simp), if_pos hfail]

/-- C9, witness: a failing optimizer at concrete inputs. -/
theorem c9_optimizer_failure_witness :
    Process cfg_zero true opt_fail adc_B rl_uniform fp_zero 0 [] pd_empty
      = ({ code := ErrorCode.PLANNING_ERROR, msg := "lateral qp optimizer failed" },
         pd_empty) :=
  c9_optimizer_failure cfg_zero opt_fail adc_B rl_uniform fp_zero 0 [] pd_empty rfl

/-- C10: at a station where the footprint touches but does not strictly
exceed the lane edges (equality allowed at either edge), the vehicle counts
as inside the lane: the base bound equals `(−laneRight, laneLeft)` and the
road half-widths are never queried — the result is identical for every
road-width function. -/
theorem c10_touching_edges_inside (adc_sl : SLBoundary) (laneW roadW : ℚ → ℚ × ℚ)
    (s : ℚ) (hL : adc_sl.end_l ≤ (laneW s).1) (hR : -(laneW s).2 ≤ adc_sl.start_l) :
    baseBound adc_sl { laneWidth := laneW, roadWidth := roadW } s
      = (-(laneW s).2, (laneW s).1) := by
  have hL' : ¬(adc_sl.end_l > (laneW s).1) := not_lt.mpr hL
  have hR' : ¬(adc_sl.start_l < -(laneW s).2) := not_lt.mpr hR
  simp [baseBound, hL', hR']

/-- C10, witness: footprint `[−3, 3]` exactly touching both edges of a lane
of half-width 3 yields `(−3, 3)`, even though the road function would give
the narrower `(−1, 1)`. -/
theorem c10_touching_edges_inside_witness :
    baseBound adc_E { laneWidth := fun _ => (3, 3), roadWidth := fun _ => (1, 1) } 0
      = ((-3 : ℚ), (3 : ℚ)) :=
  (c10_touching_edges_inside adc_E (fun _ => (3, 3)) (fun _ => (1, 1)) 0
    (by decide) (by decide)).trans (by decide)

end Apollo
